import Mathlib

/-!
Verification of the crypto_trade_bot repository: a shallow embedding of the
trend-analysis pipeline (usecase/trading_usecase.go, AnalyzeTrends), the trade
execution state machine (ExecuteTrade), the domain entity Asset with its ROI
calculation (domain/asset.go), and the KuCoin gateway request construction and
response handling (interface/gateway/kucoin_gateway.go).

Modelling conventions:
- Go float64 values are modelled as rationals (ℚ).  The repository performs
  only comparisons, one division, and multiplications by the literals 1.01,
  0.99 and 100 on these values, so the rational model tracks the float
  semantics exactly except for representation error of the literals, which the
  spec itself brackets with "within floating-point tolerance".
- External collaborators (HTTP transport, JSON unmarshalling, strconv parsing,
  the talib indicator library) are not part of the repository source; they are
  passed in as explicit oracle arguments (response values, a parse function,
  an indicator function), so that every branch of the repository code itself
  is embedded faithfully.
- The concurrent fan-out over instruments in AnalyzeTrends is serialised into
  a fold; the claims treated here concern per-instrument behaviour and
  aggregate membership, which are independent of the interleaving.
- log.Printf calls are modelled as emitted log events; log.Fatalf, which
  terminates the process, is modelled as a distinct fatal outcome.
-/

namespace CryptoTradeBot

/-- Entity domain.Asset (fields used by the embedded code paths). -/
structure Asset where
  Symbol : String
  CurrentPrice : ℚ
  Price1H : ℚ
  MACD : ℚ
  RSI : ℚ
deriving Repr, DecidableEq

/-- Method Asset.CalculateROI from domain/asset.go: returns 0 when Price1H is
zero, otherwise ((CurrentPrice - Price1H) / Price1H) * 100. -/
def Asset.CalculateROI (a : Asset) : ℚ :=
  if a.Price1H = 0 then 0 else (a.CurrentPrice - a.Price1H) / a.Price1H * 100

/-- The indicator values AnalyzeTrends reads from the talib output: the MACD
line and signal line at the last two time steps and the RSI at the last step
(locals prevMacd, prevMacdSignal, lastMacd, lastMacdSignal, lastRsi). -/
structure IndicatorSnapshot where
  prevMacd : ℚ
  prevMacdSignal : ℚ
  lastMacd : ℚ
  lastMacdSignal : ℚ
  lastRsi : ℚ
deriving Repr, DecidableEq

/-- isGoldenCross from AnalyzeTrends: prevMacd < prevMacdSignal && lastMacd >
lastMacdSignal (both comparisons strict in the source). -/
def isGoldenCross (s : IndicatorSnapshot) : Bool :=
  decide (s.prevMacd < s.prevMacdSignal) && decide (s.lastMacd > s.lastMacdSignal)

/-- isRsiNotOverbought from AnalyzeTrends: lastRsi < 70.0. -/
def isRsiNotOverbought (s : IndicatorSnapshot) : Bool :=
  decide (s.lastRsi < 70)

/-- The long-candidate condition of AnalyzeTrends: isGoldenCross && isRsiNotOverbought. -/
def longCandidate (s : IndicatorSnapshot) : Bool :=
  isGoldenCross s && isRsiNotOverbought s

/-- isDeadCross from AnalyzeTrends: prevMacd > prevMacdSignal && lastMacd <
lastMacdSignal (both comparisons strict in the source). -/
def isDeadCross (s : IndicatorSnapshot) : Bool :=
  decide (s.prevMacd > s.prevMacdSignal) && decide (s.lastMacd < s.lastMacdSignal)

/-- isRsiNotOversold from AnalyzeTrends: lastRsi > 30.0. -/
def isRsiNotOversold (s : IndicatorSnapshot) : Bool :=
  decide (s.lastRsi > 30)

/-- The short-candidate condition of AnalyzeTrends: isDeadCross && isRsiNotOversold. -/
def shortCandidate (s : IndicatorSnapshot) : Bool :=
  isDeadCross s && isRsiNotOversold s

/-- createAsset from trading_usecase.go: symbol, last close, second-to-last
close, the given MACD and RSI.  Out-of-range access cannot occur at the call
site (the length-at-least-26 guard precedes it); getD supplies the default. -/
def createAsset (symbol : String) (closePrices : List ℚ) (macd rsi : ℚ) : Asset :=
  ⟨symbol, closePrices.getD (closePrices.length - 1) 0,
    closePrices.getD (closePrices.length - 2) 0, macd, rsi⟩

/-- Log events emitted by the per-instrument goroutine body of AnalyzeTrends
(each constructor corresponds to one log.Printf site). -/
inductive ScanLog
| klinesFailed (p : String)
| parseFailed (p : String)
| notEnoughData (p : String)
| longFound (p : String)
| shortFound (p : String)
deriving Repr, DecidableEq

/-- Outcome of the close-price parsing loop of AnalyzeTrends.  The loop reads
entry k[2] of each kline row: on a row with fewer than 3 entries that index
expression raises an index-out-of-range runtime panic which, inside a
goroutine, crashes the whole process (panicked); an entry that
strconv.ParseFloat rejects makes the goroutine log and return (failed);
otherwise every close price is collected (parsed). -/
inductive ParsedCloses
| panicked
| failed
| parsed (closes : List ℚ)
deriving Repr, DecidableEq

/-- The close-price parsing loop of AnalyzeTrends, row by row in loop order:
the first short row panics, the first unparseable k[2] entry fails.  The
parse function stands for strconv.ParseFloat (library code outside the
repository). -/
def parseCloses (parse : String → Option ℚ) : List (List String) → ParsedCloses
| [] => .parsed []
| k :: ks =>
  match k.get? 2 with
  | none => .panicked
  | some str =>
    match parse str with
    | none => .failed
    | some v =>
      match parseCloses parse ks with
      | .panicked => .panicked
      | .failed => .failed
      | .parsed vs => .parsed (v :: vs)

/-- Result of one instrument analysis: the log events it emitted, the long
append (if any), and the short append (if any).  The two appends are tracked
independently exactly as the source has two independent if-blocks. -/
structure InstrumentReport where
  logs : List ScanLog
  longCand : Option Asset
  shortCand : Option Asset
deriving Repr, DecidableEq

/-- Outcome of one instrument's goroutine: a runtime panic (which crashes the
whole process) or a normal return carrying its report. -/
inductive InstrumentOutcome
| panicked
| done (r : InstrumentReport)
deriving Repr, DecidableEq

/-- The append to the long candidate set performed by an instrument's
goroutine.  A panicked run appends nothing: the only panic site, the k[2]
index in the parse loop, precedes both classification blocks. -/
def InstrumentOutcome.longAppend : InstrumentOutcome → Option Asset
| .panicked => none
| .done r => r.longCand

/-- The append to the short candidate set performed by an instrument's
goroutine; as with longAppend, a panicked run appends nothing. -/
def InstrumentOutcome.shortAppend : InstrumentOutcome → Option Asset
| .panicked => none
| .done r => r.shortCand

/-- The goroutine body of AnalyzeTrends for one pair p: fetch klines (the
result is the oracle argument), parse the close prices (panicking on a short
row), reverse the slice, check the minimum length 26, compute indicators
(oracle standing for talib.Macd/talib.Rsi), then run the two classification
if-blocks. -/
def analyzeOne (parse : String → Option ℚ) (indicators : List ℚ → IndicatorSnapshot)
    (p : String) (klinesRes : Except Unit (List (List String))) : InstrumentOutcome :=
  match klinesRes with
  | .error _ => .done ⟨[.klinesFailed p], none, none⟩
  | .ok klines =>
    match parseCloses parse klines with
    | .panicked => .panicked
    | .failed => .done ⟨[.parseFailed p], none, none⟩
    | .parsed closes =>
      let closePrices := closes.reverse
      if closePrices.length < 26 then .done ⟨[.notEnoughData p], none, none⟩
      else
        let s := indicators closePrices
        let longPart : List ScanLog × Option Asset :=
          if longCandidate s then
            ([.longFound p], some (createAsset p closePrices s.lastMacd s.lastRsi))
          else ([], none)
        let shortPart : List ScanLog × Option Asset :=
          if shortCandidate s then
            ([.shortFound p], some (createAsset p closePrices s.lastMacd s.lastRsi))
          else ([], none)
        .done ⟨longPart.1 ++ shortPart.1, longPart.2, shortPart.2⟩

/-- The fan-out over pairs, serialised: per-pair reports are concatenated in
order (logs, long appends, short appends); a panic in any instrument's
analysis crashes the process, yielding none. -/
def scanFold (parse : String → Option ℚ) (indicators : List ℚ → IndicatorSnapshot)
    (fetch : String → Except Unit (List (List String))) :
    List String → Option (List ScanLog × List Asset × List Asset)
| [] => some ([], [], [])
| p :: ps =>
  match analyzeOne parse indicators p (fetch p) with
  | .panicked => none
  | .done r =>
    match scanFold parse indicators fetch ps with
    | none => none
    | some rest => some (r.logs ++ rest.1, r.longCand.toList ++ rest.2.1, r.shortCand.toList ++ rest.2.2)

/-- Outcome of AnalyzeTrends.  The fatal constructor models log.Fatalf, which
logs and then terminates the whole process (os.Exit); crashed models a
runtime panic inside one of the analysis goroutines, which also kills the
process. -/
inductive ScanOutcome
| fatal (msg : String)
| crashed
| done (logs : List ScanLog) (longCandidates shortCandidates : List Asset)
deriving Repr, DecidableEq

/-- AnalyzeTrends from trading_usecase.go: fetch the pair universe (oracle
argument); on error log.Fatalf terminates the process; otherwise analyse
every pair and aggregate the candidate sets, crashing if any instrument's
goroutine panics. -/
def AnalyzeTrends (parse : String → Option ℚ) (indicators : List ℚ → IndicatorSnapshot)
    (pairsRes : Except String (List String))
    (fetch : String → Except Unit (List (List String))) : ScanOutcome :=
  match pairsRes with
  | .error e => .fatal e
  | .ok pairs =>
    match scanFold parse indicators fetch pairs with
    | none => .crashed
    | some r => .done r.1 r.2.1 r.2.2

/-- External calls ExecuteTrade can issue: GetCurrentPrice lookups and
CreateOrder placements (symbol, side, order type, size as passed). -/
inductive Call
| priceLookup (symbol : String)
| orderPlacement (symbol side orderType : String) (size : ℚ)
deriving Repr, DecidableEq

/-- Outcome of the entry phase of ExecuteTrade.  dryRun models the early
return when the execute flag is unset; invalidSide the early return on an
unrecognised side; the two failure constructors the logged early returns; and
positionOpened carries the entry price, position size and target exit price
with which the monitor loop is entered. -/
inductive EntryOutcome
| dryRun
| invalidSide
| priceFetchFailed
| entryOrderFailed
| positionOpened (entryPrice size targetPrice : ℚ)
deriving Repr, DecidableEq

/-- The entry phase of ExecuteTrade from trading_usecase.go, up to the start
of the monitor loop, with the gateway results for GetCurrentPrice and
CreateOrder as oracle arguments.  Branch order follows the source exactly:
the execute-flag (dry-run) check comes first, then side validation, then the
price fetch, the size computation amountUSD / currentPrice, the market entry
order, and the target price entryPrice * 1.01 (buy) or entryPrice * 0.99
(sell).  The call list records the external calls issued. -/
def ExecuteTradeEntry (symbol side : String) (amountUSD : ℚ) (execute : Bool)
    (priceRes : Except Unit ℚ) (orderRes : Except Unit String) :
    EntryOutcome × List Call :=
  if !execute then (.dryRun, [])
  else if side ≠ "buy" ∧ side ≠ "sell" then (.invalidSide, [])
  else
    match priceRes with
    | .error _ => (.priceFetchFailed, [.priceLookup symbol])
    | .ok currentPrice =>
      let size := amountUSD / currentPrice
      match orderRes with
      | .error _ =>
        (.entryOrderFailed, [.priceLookup symbol, .orderPlacement symbol side "market" size])
      | .ok _ =>
        let entryPrice := currentPrice
        let targetPrice := if side = "buy" then entryPrice * (101 / 100)
                           else entryPrice * (99 / 100)
        (.positionOpened entryPrice size targetPrice,
          [.priceLookup symbol, .orderPlacement symbol side "market" size])

/-- One iteration's worth of external input to the monitor loop of
ExecuteTrade: either the GetCurrentPrice call fails, or it returns a price p
and, should an exit order be attempted on this iteration, that CreateOrder
call succeeds iff exitOrderOk. -/
inductive Tick
| fetchFail
| priceTick (p : ℚ) (exitOrderOk : Bool)
deriving Repr, DecidableEq

/-- State of the position during the monitor loop: still open (loop running)
or closed (loop exited after a successful exit order). -/
inductive MonState
| stillOpen
| closed
deriving Repr, DecidableEq

/-- The profit-taking condition checked each iteration of the monitor loop:
(side == "buy" && latestPrice >= targetPrice) || (side == "sell" &&
latestPrice <= targetPrice). -/
def targetReached (side : String) (targetPrice latestPrice : ℚ) : Bool :=
  (decide (side = "buy") && decide (latestPrice ≥ targetPrice)) ||
  (decide (side = "sell") && decide (latestPrice ≤ targetPrice))

/-- The monitor loop of ExecuteTrade, run over a finite trace of per-iteration
inputs.  Each iteration: a failed price fetch logs and continues; a price not
reaching the target continues; a reached target triggers an exit CreateOrder,
whose failure logs and continues and whose success breaks the loop.  An
exhausted trace leaves the position open (the real loop would keep polling). -/
def monitorRun (side : String) (targetPrice : ℚ) : List Tick → MonState
| [] => .stillOpen
| t :: ts =>
  match t with
  | .fetchFail => monitorRun side targetPrice ts
  | .priceTick p exitOrderOk =>
    if targetReached side targetPrice p then
      if exitOrderOk then .closed else monitorRun side targetPrice ts
    else monitorRun side targetPrice ts

/-- The parsed form of the KuCoin ticker response consumed by
GetCurrentPrice: the status code and the price field, with none modelling a
well-formed success payload in which the price field is absent (Go's
json.Unmarshal then leaves the float64 at its zero value 0). -/
structure TickerResponse where
  code : String
  price : Option ℚ
deriving Repr, DecidableEq

/-- GetCurrentPrice from the KuCoin gateway: transport or unmarshal failure
is an error (outer none), a non-200000 code is an error, and otherwise the
price field is returned, defaulting to 0 when the field is absent. -/
def GetCurrentPrice (resp : Except Unit (Option TickerResponse)) : Except String ℚ :=
  match resp with
  | .error _ => .error "failed to get current price"
  | .ok none => .error "failed to unmarshal price response"
  | .ok (some r) =>
    if r.code ≠ "200000" then .error "KuCoin API error"
    else .ok (r.price.getD 0)

/-- The parsed form of the KuCoin kline response consumed by GetKlines. -/
structure KlineResponse where
  code : String
  data : List (List String)
deriving Repr, DecidableEq

/-- The futures API base URL set by NewKuCoinGateway. -/
def baseURL : String := "https://api-futures.kucoin.com"

/-- The URL GetKlines requests, as built in the source from its parameters:
the endpoint interpolates symbol and granularity only; the count parameter of
GetKlines does not occur in it. -/
def getKlinesURL (symbol : String) (granularity count : Int) : String :=
  baseURL ++ "/api/v1/kline/query?symbol=" ++ symbol ++ "&granularity=" ++ toString granularity

/-- GetKlines from the KuCoin gateway: build the URL, issue the GET (respond
is the oracle mapping a URL to its parsed response, standing for the HTTP
client plus the unmarshal-with-fallback), then reject a code that is neither
200000 nor empty, reject empty data, and return the data rows. -/
def GetKlines (respond : String → Except Unit KlineResponse)
    (symbol : String) (granularity count : Int) : Except String (List (List String)) :=
  let url := getKlinesURL symbol granularity count
  match respond url with
  | .error _ => .error ("failed to get klines for " ++ symbol)
  | .ok r =>
    if r.code ≠ "200000" ∧ r.code ≠ "" then .error ("KuCoin API error for kline " ++ symbol)
    else if r.data.length = 0 then .error ("no kline data returned for " ++ symbol)
    else .ok r.data

/-! Theorems about the embedded code. -/

/-- A snapshot whose previous MACD equals the previous signal while the
current MACD is above the current signal and RSI is 50. -/
def eqCrossSnapshot : IndicatorSnapshot := ⟨0, 0, 1, 0, 50⟩

/-- Claim C1 counterexample: the snapshot eqCrossSnapshot satisfies the
claimed long rule (previous MACD ≤ previous signal, current MACD > current
signal, RSI < 70) yet the code produces no long candidate, because the source
compares the previous values with a strict inequality. -/
theorem C1_counterexample :
    eqCrossSnapshot.prevMacd ≤ eqCrossSnapshot.prevMacdSignal ∧
    eqCrossSnapshot.lastMacd > eqCrossSnapshot.lastMacdSignal ∧
    eqCrossSnapshot.lastRsi < 70 ∧
    longCandidate eqCrossSnapshot = false := by
  refine ⟨le_refl _, ?_, ?_, ?_⟩ <;> decide

/-- Unfolding of the long-candidate condition into its three comparisons. -/
theorem longCandidate_iff (s : IndicatorSnapshot) :
    longCandidate s = true ↔
      s.prevMacd < s.prevMacdSignal ∧ s.lastMacd > s.lastMacdSignal ∧ s.lastRsi < 70 := by
  simp [longCandidate, isGoldenCross, isRsiNotOverbought, and_assoc]

/-- Unfolding of the short-candidate condition into its three comparisons. -/
theorem shortCandidate_iff (s : IndicatorSnapshot) :
    shortCandidate s = true ↔
      s.prevMacd > s.prevMacdSignal ∧ s.lastMacd < s.lastMacdSignal ∧ s.lastRsi > 30 := by
  simp [shortCandidate, isDeadCross, isRsiNotOversold, and_assoc]

/-- Claim C1 (amended): the classifier produces a long candidate exactly when
previous MACD < previous signal, current MACD > current signal and RSI < 70,
and a short candidate exactly when previous MACD > previous signal, current
MACD < current signal and RSI > 30 — the comparisons on the previous values
are strict, so an equality snapshot yields no candidate. -/
theorem C1_classifier_rules (s : IndicatorSnapshot) :
    (longCandidate s = true ↔
      s.prevMacd < s.prevMacdSignal ∧ s.lastMacd > s.lastMacdSignal ∧ s.lastRsi < 70) ∧
    (shortCandidate s = true ↔
      s.prevMacd > s.prevMacdSignal ∧ s.lastMacd < s.lastMacdSignal ∧ s.lastRsi > 30) :=
  ⟨longCandidate_iff s, shortCandidate_iff s⟩

/-- Claim C5: no snapshot fires both the long rule and the short rule (the
current-step crossover comparisons point in strictly opposite directions),
and accordingly a single instrument analysis never appends to both candidate
sets — on every path, the panic path included, at least one of the two
appends is absent. -/
theorem C5_mutually_exclusive :
    (∀ s : IndicatorSnapshot, (longCandidate s && shortCandidate s) = false) ∧
    (∀ (parse : String → Option ℚ) (indicators : List ℚ → IndicatorSnapshot)
      (p : String) (klinesRes : Except Unit (List (List String))),
      (analyzeOne parse indicators p klinesRes).longAppend = none ∨
      (analyzeOne parse indicators p klinesRes).shortAppend = none) := by
  have hexcl : ∀ s : IndicatorSnapshot, (longCandidate s && shortCandidate s) = false := by
    intro s
    cases hl : longCandidate s with
    | false => simp
    | true =>
      have hgt : s.lastMacd > s.lastMacdSignal := ((longCandidate_iff s).mp hl).2.1
      have : shortCandidate s = false := by
        cases hs : shortCandidate s with
        | false => rfl
        | true =>
          exact absurd (((shortCandidate_iff s).mp hs).2.1) (asymm hgt)
      simp [this]
  refine ⟨hexcl, ?_⟩
  intro parse indicators p klinesRes
  cases klinesRes with
  | error e => left; rfl
  | ok klines =>
    cases hp : parseCloses parse klines with
    | panicked => left; simp [analyzeOne, hp, InstrumentOutcome.longAppend]
    | failed => left; simp [analyzeOne, hp, InstrumentOutcome.longAppend]
    | parsed closes =>
      by_cases hlen : closes.length < 26
      · left; simp [analyzeOne, hp, hlen, InstrumentOutcome.longAppend]
      · cases hl : longCandidate (indicators closes.reverse) with
        | false => left; simp [analyzeOne, hp, hlen, hl, InstrumentOutcome.longAppend]
        | true =>
          right
          have hs := hexcl (indicators closes.reverse)
          rw [hl] at hs
          simp only [Bool.true_and] at hs
          simp [analyzeOne, hp, hlen, hs, InstrumentOutcome.shortAppend]

/-- Claim C7: when an instrument's parsed close-price series has fewer than 26
samples, the analysis of that instrument produces only the insufficient-data
log event and no candidate of either kind, and the aggregate scan over the
remaining pairs is exactly what it would have been without this instrument
(only the log event is prepended). -/
theorem C7_insufficient_data (parse : String → Option ℚ)
    (indicators : List ℚ → IndicatorSnapshot) (fetch : String → Except Unit (List (List String)))
    (p : String) (klines : List (List String)) (closes : List ℚ)
    (hf : fetch p = .ok klines) (hp : parseCloses parse klines = .parsed closes)
    (hlen : closes.length < 26) :
    analyzeOne parse indicators p (.ok klines) =
      .done ⟨[.notEnoughData p], none, none⟩ ∧
    ∀ ps, scanFold parse indicators fetch (p :: ps) =
      (scanFold parse indicators fetch ps).map
        (fun rest => (ScanLog.notEnoughData p :: rest.1, rest.2.1, rest.2.2)) := by
  have h1 : analyzeOne parse indicators p (.ok klines) =
      .done ⟨[.notEnoughData p], none, none⟩ := by
    simp [analyzeOne, hp, hlen]
  refine ⟨h1, ?_⟩
  intro ps
  cases hrest : scanFold parse indicators fetch ps with
  | none => simp [scanFold, hf, h1, hrest]
  | some rest => simp [scanFold, hf, h1, hrest]

/-- Claim C7 witness: a single kline row parses to a one-sample series, which
is skipped with the insufficient-data log and leaves the scan of the empty
remainder untouched. -/
theorem C7_insufficient_data_witness :
    analyzeOne (fun _ => some 1) (fun _ => ⟨0, 0, 0, 0, 0⟩) "BTC-USDT"
      (.ok [["t", "o", "1"]]) = .done ⟨[.notEnoughData "BTC-USDT"], none, none⟩ ∧
    ∀ ps, scanFold (fun _ => some 1) (fun _ => ⟨0, 0, 0, 0, 0⟩)
      (fun _ => .ok [["t", "o", "1"]]) ("BTC-USDT" :: ps) =
      (scanFold (fun _ => some 1) (fun _ => ⟨0, 0, 0, 0, 0⟩)
        (fun _ => .ok [["t", "o", "1"]]) ps).map
        (fun rest => (ScanLog.notEnoughData "BTC-USDT" :: rest.1, rest.2.1, rest.2.2)) :=
  C7_insufficient_data (fun _ => some 1) (fun _ => ⟨0, 0, 0, 0, 0⟩)
    (fun _ => .ok [["t", "o", "1"]]) "BTC-USDT" [["t", "o", "1"]] [1]
    rfl rfl (by decide)

/-- Claim C3 counterexample: a failure of the market-universe lookup is passed
to log.Fatalf, which terminates the process, rather than being logged without
a crash as the claim states; the scan outcome is the fatal one. -/
theorem C3_counterexample :
    AnalyzeTrends (fun _ => some 1) (fun _ => ⟨0, 0, 0, 0, 0⟩)
      (.error "Error getting top pairs") (fun _ => .error ()) =
      ScanOutcome.fatal "Error getting top pairs" := rfl

/-- Claim C3 (amended): per-instrument fetch failures and close-price parse
failures are each reported as a log event for that instrument, produce no
candidate, and never abort the scan, which runs to completion whenever the
market-universe lookup succeeds and no instrument's analysis panics.  Two
failure kinds do kill the process: a failing market-universe lookup goes
through the fatal logging call, and a kline row with fewer than three
entries raises an index-out-of-range panic at the k[2] access inside the
goroutine. -/
theorem C3_failure_reporting (parse : String → Option ℚ)
    (indicators : List ℚ → IndicatorSnapshot)
    (fetch : String → Except Unit (List (List String))) :
    (∀ pairs : List String,
      (∀ p ∈ pairs, analyzeOne parse indicators p (fetch p) ≠ .panicked) →
      ∃ logs long short,
        AnalyzeTrends parse indicators (.ok pairs) fetch = ScanOutcome.done logs long short) ∧
    (∀ p, analyzeOne parse indicators p (.error ()) =
      .done ⟨[.klinesFailed p], none, none⟩) ∧
    (∀ p klines, parseCloses parse klines = .failed →
      analyzeOne parse indicators p (.ok klines) = .done ⟨[.parseFailed p], none, none⟩) ∧
    (∀ p klines, parseCloses parse klines = .panicked →
      analyzeOne parse indicators p (.ok klines) = .panicked) ∧
    (∀ e, AnalyzeTrends parse indicators (.error e) fetch = ScanOutcome.fatal e) := by
  refine ⟨?_, fun p => rfl, ?_, ?_, fun e => rfl⟩
  · intro pairs hnp
    have hfold : ∀ qs : List String,
        (∀ p ∈ qs, analyzeOne parse indicators p (fetch p) ≠ .panicked) →
        ∃ v, scanFold parse indicators fetch qs = some v := by
      intro qs
      induction qs with
      | nil => exact fun _ => ⟨([], [], []), rfl⟩
      | cons q qs ih =>
        intro h
        obtain ⟨v, hv⟩ := ih (fun p hp => h p (List.mem_cons_of_mem _ hp))
        cases hq : analyzeOne parse indicators q (fetch q) with
        | panicked => exact absurd hq (h q (List.mem_cons_self _ _))
        | done r =>
          exact ⟨(r.logs ++ v.1, r.longCand.toList ++ v.2.1, r.shortCand.toList ++ v.2.2),
            by simp [scanFold, hq, hv]⟩
    obtain ⟨v, hv⟩ := hfold pairs hnp
    exact ⟨v.1, v.2.1, v.2.2, by simp [AnalyzeTrends, hv]⟩
  · intro p klines hp
    simp [analyzeOne, hp]
  · intro p klines hp
    simp [analyzeOne, hp]

/-- Claim C3 witness: with a universe of two pairs whose fetches fail, the
scan completes with the failures logged; a concrete parse failure and a
concrete short-row panic instantiate the remaining hypotheses. -/
theorem C3_failure_reporting_witness :
    (∃ logs long short,
      AnalyzeTrends (fun _ => some 1) (fun _ => ⟨0, 0, 0, 0, 0⟩)
        (.ok ["BTC-USDT", "ETH-USDT"]) (fun _ => .error ()) =
        ScanOutcome.done logs long short) ∧
    analyzeOne (fun _ => some 1) (fun _ => ⟨0, 0, 0, 0, 0⟩) "BTC-USDT" (.error ()) =
      .done ⟨[.klinesFailed "BTC-USDT"], none, none⟩ ∧
    analyzeOne (fun _ => none) (fun _ => ⟨0, 0, 0, 0, 0⟩) "BTC-USDT" (.ok [["t", "o", "x"]]) =
      .done ⟨[.parseFailed "BTC-USDT"], none, none⟩ ∧
    analyzeOne (fun _ => some 1) (fun _ => ⟨0, 0, 0, 0, 0⟩) "BTC-USDT" (.ok [["t"]]) =
      InstrumentOutcome.panicked :=
  ⟨(C3_failure_reporting (fun _ => some 1) (fun _ => ⟨0, 0, 0, 0, 0⟩)
      (fun _ => .error ())).1 ["BTC-USDT", "ETH-USDT"]
      (by intro p hp h; simp [analyzeOne] at h),
   (C3_failure_reporting (fun _ => some 1) (fun _ => ⟨0, 0, 0, 0, 0⟩)
      (fun _ => .error ())).2.1 "BTC-USDT",
   (C3_failure_reporting (fun _ => none) (fun _ => ⟨0, 0, 0, 0, 0⟩)
      (fun _ => .error ())).2.2.1 "BTC-USDT" [["t", "o", "x"]] rfl,
   (C3_failure_reporting (fun _ => some 1) (fun _ => ⟨0, 0, 0, 0, 0⟩)
      (fun _ => .error ())).2.2.2.1 "BTC-USDT" [["t"]] rfl⟩

/-- Claim C2 counterexample: an intent with the invalid side "hold" and the
dry-run flag (execute unset) is reported as the dry-run outcome, not as
InvalidSide — the source checks the execute flag before validating the side,
the opposite order to the claim.  No external calls occur either way. -/
theorem C2_counterexample :
    ExecuteTradeEntry "BTC-USDT" "hold" 10 false (.error ()) (.error ()) =
      (EntryOutcome.dryRun, []) := rfl

/-- Claim C2 (amended): the dry-run check precedes side validation.  With the
execute flag set, any side other than "buy" and "sell" aborts with
InvalidSide and no price-lookup or order-placement calls; with the dry-run
flag, the same intent aborts as a dry run (also with no calls), so an invalid
side is masked by the dry-run report rather than surfaced as InvalidSide. -/
theorem C2_invalid_side (symbol side : String) (amountUSD : ℚ)
    (priceRes : Except Unit ℚ) (orderRes : Except Unit String)
    (h1 : side ≠ "buy") (h2 : side ≠ "sell") :
    ExecuteTradeEntry symbol side amountUSD true priceRes orderRes =
      (EntryOutcome.invalidSide, []) ∧
    ExecuteTradeEntry symbol side amountUSD false priceRes orderRes =
      (EntryOutcome.dryRun, []) := by
  constructor <;> simp [ExecuteTradeEntry, h1, h2]

/-- Claim C2 witness: side "hold" with the execute flag aborts with
InvalidSide and an empty call list. -/
theorem C2_invalid_side_witness :
    ExecuteTradeEntry "BTC-USDT" "hold" 10 true (.ok 100) (.ok "oid") =
      (EntryOutcome.invalidSide, []) ∧
    ExecuteTradeEntry "BTC-USDT" "hold" 10 false (.ok 100) (.ok "oid") =
      (EntryOutcome.dryRun, []) :=
  C2_invalid_side "BTC-USDT" "hold" 10 (.ok 100) (.ok "oid")
    (by decide) (by decide)

/-- Claim C6: with the execute flag set and a successful price fetch P and
entry order, a buy opens a position of size amountUSD / P with target
P * 1.01, and a sell opens the same size with target P * 0.99 (the literals
1.01 and 0.99 modelled as exact rationals); the monitor loop's profit-taking
condition holds for a buy exactly when the polled price is ≥ the target and
for a sell exactly when it is ≤ the target. -/
theorem C6_sizing_and_target (symbol : String) (amountUSD P : ℚ) (oid : String)
    (hP : 0 < P) :
    (ExecuteTradeEntry symbol "buy" amountUSD true (.ok P) (.ok oid) =
      (EntryOutcome.positionOpened P (amountUSD / P) (P * (101 / 100)),
       [Call.priceLookup symbol, Call.orderPlacement symbol "buy" "market" (amountUSD / P)])) ∧
    (ExecuteTradeEntry symbol "sell" amountUSD true (.ok P) (.ok oid) =
      (EntryOutcome.positionOpened P (amountUSD / P) (P * (99 / 100)),
       [Call.priceLookup symbol, Call.orderPlacement symbol "sell" "market" (amountUSD / P)])) ∧
    (∀ target latest : ℚ, targetReached "buy" target latest = true ↔ latest ≥ target) ∧
    (∀ target latest : ℚ, targetReached "sell" target latest = true ↔ latest ≤ target) := by
  refine ⟨by simp [ExecuteTradeEntry], by simp [ExecuteTradeEntry], ?_, ?_⟩ <;>
    intro target latest <;> simp [targetReached]

/-- Claim C6 witness: side "buy", entry price 100, notional 1000 gives size
10 and target 101; side "sell" gives target 99; prices 101 and 99 reach the
respective targets. -/
theorem C6_sizing_and_target_witness :
    (ExecuteTradeEntry "BTC-USDT" "buy" 1000 true (.ok 100) (.ok "oid") =
      (EntryOutcome.positionOpened 100 10 101,
       [Call.priceLookup "BTC-USDT", Call.orderPlacement "BTC-USDT" "buy" "market" 10])) ∧
    (ExecuteTradeEntry "BTC-USDT" "sell" 1000 true (.ok 100) (.ok "oid") =
      (EntryOutcome.positionOpened 100 10 99,
       [Call.priceLookup "BTC-USDT", Call.orderPlacement "BTC-USDT" "sell" "market" 10])) ∧
    targetReached "buy" 101 101 = true ∧ targetReached "sell" 99 99 = true := by
  have h := C6_sizing_and_target "BTC-USDT" 1000 100 "oid" (by norm_num)
  have hsize : (1000 : ℚ) / 100 = 10 := by norm_num
  have htb : (100 : ℚ) * (101 / 100) = 101 := by norm_num
  have hts : (100 : ℚ) * (99 / 100) = 99 := by norm_num
  refine ⟨?_, ?_, (h.2.2.1 101 101).mpr le_rfl, (h.2.2.2 99 99).mpr le_rfl⟩
  · have := h.1
    rw [hsize, htb] at this
    exact this
  · have := h.2.1
    rw [hsize, hts] at this
    exact this

/-- Claim C4: in the monitor loop, a failed price fetch leaves the run
unchanged (the position stays open and polling continues); when the target is
reached but the exit order fails, the run likewise continues from the open
state, retrying on a later qualifying tick; the run reports closed only if
some tick in the trace reached the target with a successful exit order; and a
qualifying tick with a successful exit order closes immediately — the sole
transition to closed. -/
theorem C4_monitor_loop (side : String) (targetPrice : ℚ) :
    (∀ ts, monitorRun side targetPrice (Tick.fetchFail :: ts) =
      monitorRun side targetPrice ts) ∧
    (∀ p ts, targetReached side targetPrice p = true →
      monitorRun side targetPrice (Tick.priceTick p false :: ts) =
        monitorRun side targetPrice ts) ∧
    (∀ ts, monitorRun side targetPrice ts = MonState.closed →
      ∃ p, Tick.priceTick p true ∈ ts ∧ targetReached side targetPrice p = true) ∧
    (∀ p ts, targetReached side targetPrice p = true →
      monitorRun side targetPrice (Tick.priceTick p true :: ts) = MonState.closed) := by
  refine ⟨fun ts => rfl, fun p ts h => by simp [monitorRun, h], ?_, fun p ts h => by simp [monitorRun, h]⟩
  intro ts
  induction ts with
  | nil => intro h; exact absurd h (by simp [monitorRun])
  | cons t ts ih =>
    intro h
    cases t with
    | fetchFail =>
      obtain ⟨p, hmem, hr⟩ := ih h
      exact ⟨p, List.mem_cons_of_mem _ hmem, hr⟩
    | priceTick p exitOrderOk =>
      by_cases hr : targetReached side targetPrice p = true
      · cases exitOrderOk with
        | true => exact ⟨p, List.mem_cons_self _ _, hr⟩
        | false =>
          rw [show monitorRun side targetPrice (Tick.priceTick p false :: ts) =
            monitorRun side targetPrice ts by simp [monitorRun, hr]] at h
          obtain ⟨q, hmem, hq⟩ := ih h
          exact ⟨q, List.mem_cons_of_mem _ hmem, hq⟩
      · rw [show monitorRun side targetPrice (Tick.priceTick p exitOrderOk :: ts) =
          monitorRun side targetPrice ts by
            simp [monitorRun, Bool.not_eq_true (targetReached side targetPrice p) ▸ hr]] at h
        obtain ⟨q, hmem, hq⟩ := ih h
        exact ⟨q, List.mem_cons_of_mem _ hmem, hq⟩

/-- Claim C4 witness: for a long with target 101, a fetch failure and a
failed exit at price 102 both continue the run, and the run over a trace
whose final tick is a successful exit at 102 is closed. -/
theorem C4_monitor_loop_witness :
    monitorRun "buy" 101 (Tick.fetchFail :: [Tick.priceTick 102 true]) =
      monitorRun "buy" 101 [Tick.priceTick 102 true] ∧
    monitorRun "buy" 101 (Tick.priceTick 102 false :: [Tick.priceTick 102 true]) =
      monitorRun "buy" 101 [Tick.priceTick 102 true] ∧
    monitorRun "buy" 101 [Tick.priceTick 102 true] = MonState.closed :=
  ⟨(C4_monitor_loop "buy" 101).1 [Tick.priceTick 102 true],
   (C4_monitor_loop "buy" 101).2.1 102 [Tick.priceTick 102 true] (by decide),
   (C4_monitor_loop "buy" 101).2.2.2 102 [] (by decide)⟩

/-- An asset whose current price equals its one-interval-prior price 100. -/
def flatAsset : Asset := ⟨"BTC-USDT", 100, 100, 0, 0⟩

/-- Claim C8 counterexample: CalculateROI returns 0 on an asset whose prior
price is 100 (non-zero), because the formula (current − prior)/prior × 100 is
itself 0 when the two prices coincide — so the ROI is 0 not exactly when the
prior price is 0. -/
theorem C8_counterexample :
    flatAsset.Price1H ≠ 0 ∧ Asset.CalculateROI flatAsset = 0 := by
  constructor
  · norm_num [flatAsset]
  · norm_num [Asset.CalculateROI, flatAsset]

/-- Claim C8 (amended): CalculateROI returns 0 whenever the one-interval-prior
price is 0, and otherwise returns (current − prior) / prior × 100 — a value
that can also be 0, e.g. when the two prices coincide; current = 105,
prior = 100 gives 5. -/
theorem C8_roi (a : Asset) :
    (a.Price1H = 0 → a.CalculateROI = 0) ∧
    (a.Price1H ≠ 0 →
      a.CalculateROI = (a.CurrentPrice - a.Price1H) / a.Price1H * 100) := by
  constructor <;> intro h <;> simp [Asset.CalculateROI, h]

/-- Claim C8 witness: prior 0 gives ROI 0; current 105 over prior 100 gives
ROI 5. -/
theorem C8_roi_witness :
    Asset.CalculateROI ⟨"A", 5, 0, 0, 0⟩ = 0 ∧
    Asset.CalculateROI ⟨"A", 105, 100, 0, 0⟩ = 5 := by
  constructor
  · exact (C8_roi ⟨"A", 5, 0, 0, 0⟩).1 rfl
  · rw [(C8_roi ⟨"A", 105, 100, 0, 0⟩).2 (by norm_num)]
    norm_num

/-- Claim C9: GetKlines never reads its count parameter — two invocations
differing only in count build the identical request URL and, against the same
responder, return the identical result. -/
theorem C9_getklines_ignores_count (respond : String → Except Unit KlineResponse)
    (symbol : String) (granularity c1 c2 : Int) :
    getKlinesURL symbol granularity c1 = getKlinesURL symbol granularity c2 ∧
    GetKlines respond symbol granularity c1 = GetKlines respond symbol granularity c2 :=
  ⟨rfl, rfl⟩

/-- Claim C10: a well-formed success ticker response (code 200000) lacking a
price field yields the price 0 from GetCurrentPrice (Go's zero value), and
ExecuteTradeEntry, having no zero-price guard, then opens the position anyway:
it computes the size as amountUSD / 0, places the market entry order with
that size, and does not abort.  (In Go the float division by zero produces
+Inf rather than the rational convention 0; either way the order is placed.) -/
theorem C10_no_zero_price_guard (symbol : String) (amountUSD : ℚ) (oid : String) :
    GetCurrentPrice (.ok (some ⟨"200000", none⟩)) = .ok 0 ∧
    ExecuteTradeEntry symbol "buy" amountUSD true (.ok 0) (.ok oid) =
      (EntryOutcome.positionOpened 0 (amountUSD / 0) 0,
       [Call.priceLookup symbol,
        Call.orderPlacement symbol "buy" "market" (amountUSD / 0)]) := by
  refine ⟨rfl, ?_⟩
  simp [ExecuteTradeEntry]

end CryptoTradeBot
